import Mathlib

/-!
Verification of the fabio core: the consul service watcher
(`watchServices`, `servicesConfig`, `serviceConfig`) and the request
dispatcher (`Proxy.ServeHTTP`), shallowly embedded from the Go source.

External collaborators that are not part of the verified source
(the consul client, `passingServices`, `parseURLPrefixTag`, header
injection) are modelled as oracles or from the specification, and each
such definition says so in its doc comment.
-/

namespace Fabio

/-! ### Small string helpers (over `List Char`) -/

/-- Whether `suf` is a suffix of `s` (model of Go `strings.HasSuffix`). -/
def strHasSuffix (s suf : List Char) : Bool :=
  decide (s.drop (s.length - suf.length) = suf)

/-- Drop whitespace on both ends (model of Go `strings.TrimSpace`). -/
def trimChars (s : List Char) : List Char :=
  ((s.dropWhile Char.isWhitespace).reverse.dropWhile Char.isWhitespace).reverse

/-- Characters allowed in a `$VAR` variable name. -/
def isVarChar (c : Char) : Bool :=
  c.isAlpha || c.isDigit || c = '_'

/-- Lookup of a variable binding. -/
def lookupEnv (env : List (String × String)) (k : String) : Option String :=
  match env with
  | [] => none
  | (k', v) :: rest => if k' = k then some v else lookupEnv rest k

/-- Modelled from the spec (§4.A): substitute `$NAME` occurrences using the
bindings; an unbound `$NAME` rejects the whole string.  Fuel-indexed to keep
the recursion structural; `substVars` supplies enough fuel. -/
def substFuel (env : List (String × String)) : Nat → List Char → Option (List Char)
  | _, [] => some []
  | 0, _ :: _ => none
  | fuel + 1, c :: rest =>
    if c = '$' then
      match rest.takeWhile isVarChar with
      | [] => (substFuel env fuel rest).map (fun r => '$' :: r)
      | nm =>
        match lookupEnv env (String.mk nm) with
        | none => none
        | some v => (substFuel env fuel (rest.dropWhile isVarChar)).map (fun r => v.toList ++ r)
    else
      (substFuel env fuel rest).map (fun r => c :: r)

/-- Modelled from the spec (§4.A): variable substitution. -/
def substVars (env : List (String × String)) (s : List Char) : Option (List Char) :=
  substFuel env s.length s

/-- Split at the first `/`; the right part keeps the leading `/`.
`none` when the string has no `/`. -/
def splitFirstSlash : List Char → Option (List Char × List Char)
  | [] => none
  | c :: rest =>
    if c = '/' then some ([], c :: rest)
    else (splitFirstSlash rest).map (fun p => (c :: p.1, p.2))

/-- Escape one character (model of the escaping done by Go `%q` /
`strconv.Quote`; faithful on strings without exotic control characters). -/
def goQuoteChar (c : Char) : List Char :=
  if c = '"' then ['\\', '"']
  else if c = '\\' then ['\\', '\\']
  else if c = '\n' then ['\\', 'n']
  else if c = '\t' then ['\\', 't']
  else if c = '\r' then ['\\', 'r']
  else [c]

/-- Model of Go `%q`: the argument wrapped in double quotes with escaping. -/
def goQuote (s : String) : String :=
  String.mk ('"' :: (s.toList.flatMap goQuoteChar) ++ ['"'])

/-! ### Consul data model -/

/-- One health check observation (`api.HealthCheck`), the fields the core
reads: service name, service instance id, and the check status. -/
structure HealthCheck where
  ServiceName : String
  ServiceID : String
  Status : String
deriving DecidableEq, Repr

/-- One catalog entry (`api.CatalogService`), the fields `serviceConfig`
reads. `Address` is the node address, `ServiceAddress` the instance one. -/
structure CatalogService where
  ServiceID : String
  ServiceName : String
  ServiceAddress : String
  ServicePort : Int
  Address : String
  ServiceTags : List String
deriving DecidableEq, Repr

/-- Oracle for the consul catalog endpoints (§6 discovery client contract):
`datacenters` models `Catalog().Datacenters()` and `service name dc` models
`Catalog().Service(name, "", {Datacenter: dc})`; `none` models a transport
error. -/
structure ConsulClient where
  datacenters : Option (List String)
  service : String → String → Option (List CatalogService)

/-- Modelled from the spec (§4.A, `parseURLPrefixTag` is not under src/):
strip the configured marker (reject if absent), trim, substitute `$NAME`
from the bindings (reject when unbound), split at the first `/` (reject
when there is none); left of the `/` is the host, the rest the path. -/
def parseURLPrefixTag (tag : String) (tagPfx : String) (env : List (String × String)) :
    Option (String × String) :=
  let t := tag.toList
  let p := tagPfx.toList
  if t.take p.length = p then
    match substVars env (trimChars (t.drop p.length)) with
    | none => none
    | some r =>
      match splitFirstSlash r with
      | none => none
      | some (host, path) => some (String.mk (trimChars host), String.mk path)
  else
    none

/-- The `.local` adjustment of `serviceConfig` (src/proxy/proxy.go:457):
on darwin an address with no dot and no `.local` suffix gets `.local`
appended. -/
def darwinAdjust (goos addr : String) : String :=
  if goos = "darwin" ∧ addr.toList.contains '.' = false
      ∧ strHasSuffix addr.toList ".local".toList = false then
    addr ++ ".local"
  else addr

/-- The effective address of an instance (src/proxy/proxy.go:451-459): the
node address when the service address is empty, then the darwin fix. -/
def effAddr (goos : String) (svc : CatalogService) : String :=
  darwinAdjust goos (if svc.ServiceAddress = "" then svc.Address else svc.ServiceAddress)

/-- The `fmt.Sprintf("route add %s %s%s http://%s:%d/ tags %q", ...)` of
`serviceConfig` (src/proxy/proxy.go:461). -/
def fmtRouteLine (name host path addr : String) (port : Int) (tags : List String) : String :=
  "route add " ++ name ++ " " ++ host ++ path ++ " http://" ++ addr ++ ":" ++ toString port
    ++ "/ tags " ++ goQuote (String.intercalate "," tags)

/-- The route line produced for one instance and one tag, `none` when the
tag is not a qualifying url marker tag (src/proxy/proxy.go:447-462). -/
def routeLineFor (goos dc tagPfx : String) (svc : CatalogService) (tag : String) :
    Option String :=
  match parseURLPrefixTag tag tagPfx [("DC", dc)] with
  | none => none
  | some (host, path) =>
    some (fmtRouteLine svc.ServiceName host path (effAddr goos svc) svc.ServicePort svc.ServiceTags)

/-- The inner loop of `serviceConfig` over the instances of one datacenter
(src/proxy/proxy.go:440-463): instances absent from `passing` are skipped,
every qualifying tag of a passing instance yields one route line. -/
def serviceConfigDC (goos tagPfx : String) (passing : List String) (dc : String)
    (svcs : List CatalogService) : List String :=
  svcs.flatMap (fun svc =>
    if passing.contains svc.ServiceID then
      svc.ServiceTags.filterMap (routeLineFor goos dc tagPfx svc)
    else [])

/-- The datacenter loop of `serviceConfig` (src/proxy/proxy.go:428-465).
`none` models the `return nil` on a catalog error, which discards the lines
of every datacenter. -/
def serviceConfigLoop (goos : String) (client : ConsulClient) (name : String)
    (passing : List String) (tagPfx : String) : List String → Option (List String)
  | [] => some []
  | dc :: rest =>
    match client.service name dc with
    | none => none
    | some svcs =>
      match serviceConfigLoop goos client name passing tagPfx rest with
      | none => none
      | some restLines => some (serviceConfigDC goos tagPfx passing dc svcs ++ restLines)

/-- `serviceConfig` (src/proxy/proxy.go:417-467): the route lines for all
good instances of a single service, empty on an empty name, an empty
passing set, or any catalog error. -/
def serviceConfig (goos : String) (client : ConsulClient) (name : String)
    (passing : List String) (tagPfx : String) : List String :=
  if name = "" then []
  else if passing.isEmpty then []
  else
    match client.datacenters with
    | none => []
    | some dcs => (serviceConfigLoop goos client name passing tagPfx dcs).getD []

/-- The key set of the map `m` built by `servicesConfig`
(src/proxy/proxy.go:394-402): the distinct service names of the checks. -/
def serviceNames (checks : List HealthCheck) : List String :=
  (checks.map HealthCheck.ServiceName).dedup

/-- The passing set `m[name]` of `servicesConfig` (src/proxy/proxy.go:394-402):
the distinct instance ids having a check for `name`. -/
def passingIds (checks : List HealthCheck) (name : String) : List String :=
  ((checks.filter (fun c => c.ServiceName = name)).map HealthCheck.ServiceID).dedup

/-- The collected route lines of one publish cycle, before sorting
(src/proxy/proxy.go:404-408). -/
def servicesConfigLines (goos : String) (client : ConsulClient)
    (checks : List HealthCheck) (tagPfx : String) : List String :=
  (serviceNames checks).flatMap
    (fun name => serviceConfig goos client name (passingIds checks name) tagPfx)

/-- Computable lexicographic comparison of character lists.  This is the
order Go's string sort uses: byte-wise comparison coincides with
codepoint-wise comparison on valid UTF-8. -/
def lexLe : List Char → List Char → Bool
  | [], _ => true
  | _ :: _, [] => false
  | a :: as, b :: bs => if a = b then lexLe as bs else decide (a < b)

/-- Computable `≤` on strings. -/
def strLe (a b : String) : Bool := lexLe a.toList b.toList

/-- `lexLe` decides the (Mathlib) lexicographic order on `List Char`. -/
theorem lexLe_eq_true_iff : ∀ l1 l2 : List Char, lexLe l1 l2 = true ↔ ¬ List.Lex (· < ·) l2 l1 := by
  intro l1
  induction l1 with
  | nil =>
    intro l2
    simp only [lexLe, true_iff]
    exact List.Lex.not_nil_right _ _
  | cons a as ih =>
    intro l2
    cases l2 with
    | nil =>
      simp only [lexLe, Bool.false_eq_true, false_iff, not_not]
      exact List.Lex.nil
    | cons b bs =>
      by_cases hab : a = b
      · subst hab
        rw [show lexLe (a :: as) (a :: bs) = lexLe as bs from by simp [lexLe], ih bs]
        exact (not_congr List.Lex.cons_iff).symm
      · simp only [lexLe, if_neg hab, decide_eq_true_eq]
        constructor
        · intro hlt hlex
          cases hlex with
          | cons h => exact hab rfl
          | rel h => exact absurd hlt (asymm h)
        · intro h
          rcases lt_trichotomy a b with h1 | h1 | h1
          · exact h1
          · exact absurd h1 hab
          · exact absurd (List.Lex.rel h1) h

/-- `strLe` decides the standard linear order on `String`. -/
theorem strLe_iff (a b : String) : strLe a b = true ↔ a ≤ b := by
  rw [String.le_iff_toList_le, ← not_lt]
  exact lexLe_eq_true_iff a.toList b.toList

/-- A kernel-reducible decision procedure for `· ≥ ·` on strings. -/
def geDec : DecidableRel (fun a b : String => a ≥ b) :=
  fun a b => decidable_of_iff (strLe b a = true) (strLe_iff b a)

/-- The lines of the published document: the collected lines sorted in
reverse lexicographic order (src/proxy/proxy.go:411
`sort.Sort(sort.Reverse(sort.StringSlice(config)))`). -/
def routingDocLines (goos : String) (client : ConsulClient)
    (checks : List HealthCheck) (tagPfx : String) : List String :=
  @List.insertionSort String (· ≥ ·) geDec (servicesConfigLines goos client checks tagPfx)

/-- `servicesConfig` (src/proxy/proxy.go:392-414): the published
RoutingDocument, the sorted lines joined with a newline. -/
def servicesConfig (goos : String) (client : ConsulClient)
    (checks : List HealthCheck) (tagPfx : String) : String :=
  String.intercalate "\n" (routingDocLines goos client checks tagPfx)

/-- Modelled from the spec (§3): the canonical record form of one route. -/
structure RouteLine where
  service : String
  host : String
  path : String
  addr : String
  port : Int
  tags : List String
deriving DecidableEq, Repr

/-- Modelled from the spec (§3, §6 routing document grammar): the canonical
textual form `route add <service> <host><path> http://<addr>:<port>/ tags
"<csv of instance tags>"`. -/
def RouteLine.render (rl : RouteLine) : String :=
  "route add " ++ rl.service ++ " " ++ rl.host ++ rl.path ++ " http://" ++ rl.addr ++ ":"
    ++ toString rl.port ++ "/ tags " ++ goQuote (String.intercalate "," rl.tags)

/-! ### Watcher loop (`watchServices`, src/proxy/proxy.go:353-388) -/

/-- Result of one `Health().State("any", q)` call: the checks and
`meta.LastIndex`. -/
structure HealthResult where
  checks : List HealthCheck
  metaLastIndex : Nat
deriving DecidableEq, Repr

/-- Oracle for the health endpoint (§6): `healthState dc waitIndex` models
`Health().State("any", {RequireConsistent: true, WaitIndex: waitIndex,
Datacenter: dc})`; `none` models a transport error.  Remote reads pass
`waitIndex = 0` (the Go zero value of an unset `WaitIndex`). -/
structure WatchEnv where
  healthState : String → Nat → Option HealthResult

/-- Observable actions of one watcher iteration: the WARN log lines, the
one second sleeps and the send on the `config` channel. -/
inductive WatchEvent where
  | warnFetch
  | warnChanged (idx : Nat)
  | sleepSec (n : Nat)
  | publish (doc : String)
deriving DecidableEq, Repr

/-- Modelled from the spec (§4.B, `passingServices` is not under src/): keep
exactly the health records of instances every check of which has a status
in the allow-list; the allow-list defaults to `passing` when unset. -/
def statusAllowList (status : List String) : List String :=
  if status.isEmpty then ["passing"] else status

/-- Modelled from the spec (§4.B): the all-must-pass health filter. -/
def passingServices (checks : List HealthCheck) (status : List String) : List HealthCheck :=
  checks.filter (fun c =>
    checks.all (fun c2 =>
      if c2.ServiceName = c.ServiceName ∧ c2.ServiceID = c.ServiceID then
        (statusAllowList status).contains c2.Status
      else true))

/-- The remote-datacenter loop of `watchServices` (src/proxy/proxy.go:370-385)
over the indexed datacenter list: the local index is skipped, a failed read
logs a WARN, sleeps one second and contributes nothing, a successful read
appends its checks. -/
def remoteFetch (env : WatchEnv) (dcIndex : Nat) :
    List (Nat × String) → List HealthCheck × List WatchEvent
  | [] => ([], [])
  | (i, dc) :: rest =>
    if i = dcIndex then remoteFetch env dcIndex rest
    else
      match env.healthState dc 0 with
      | none =>
        let r := remoteFetch env dcIndex rest
        (r.1, [WatchEvent.warnFetch, WatchEvent.sleepSec 1] ++ r.2)
      | some hr =>
        let r := remoteFetch env dcIndex rest
        (hr.checks ++ r.1, r.2)

/-- The checks contributed by the remote datacenters: failed reads
contribute nothing, successful reads contribute their checks in datacenter
order. -/
def okRemoteChecks (env : WatchEnv) (dcIndex : Nat) (dcs : List (Nat × String)) :
    List HealthCheck :=
  dcs.flatMap (fun p =>
    if p.1 = dcIndex then []
    else ((env.healthState p.2 0).map HealthResult.checks).getD [])

/-- One iteration of the `for` loop of `watchServices`
(src/proxy/proxy.go:356-387): returns the new `lastIndex` and the observable
events of the iteration.  A failed local blocking read logs a WARN, sleeps
one second and retries (the `continue`); a successful one advances
`lastIndex`, runs the remote loop and publishes the document built from all
accumulated checks. -/
def watchStep (goos : String) (env : WatchEnv) (client : ConsulClient)
    (tagPfx : String) (status : List String) (datacenters : List String)
    (dcIndex : Nat) (lastIndex : Nat) : Nat × List WatchEvent :=
  match env.healthState (datacenters.getD dcIndex "") lastIndex with
  | none => (lastIndex, [WatchEvent.warnFetch, WatchEvent.sleepSec 1])
  | some res =>
    let rf := remoteFetch env dcIndex datacenters.enum
    (res.metaLastIndex,
      [WatchEvent.warnChanged res.metaLastIndex] ++ rf.2 ++
        [WatchEvent.publish
          (servicesConfig goos client (passingServices (res.checks ++ rf.1) status) tagPfx)])

/-! ### Request dispatcher (`Proxy.ServeHTTP`, src/proxy/proxy.go:27-65) -/

/-- A resolved backend target: the pieces of `route.Target` that
`ServeHTTP` reads (`t.URL`; the per-target timer is tracked in the
dispatch result). -/
structure Target where
  url : String
deriving DecidableEq, Repr

/-- The request data `ServeHTTP` reads: `r.Header.Get` and `r.RemoteAddr`. -/
structure HttpRequest where
  headerGet : String → String
  remoteAddr : String

/-- The handler variant picked by the `switch` (src/proxy/proxy.go:44-59). -/
inductive HandlerChoice where
  | rawProxy (url : String)
  | httpProxy (url : String) (flushInterval : Int)
deriving DecidableEq, Repr

/-- The configuration fields `ServeHTTP` reads (`config.Proxy`). -/
structure ProxyCfg where
  noRouteStatus : Nat
  flushInterval : Int
deriving DecidableEq, Repr

/-- Oracles for the dispatcher's collaborators: the shutdown gate
(`ShuttingDown()`), the route table lookup (`target(r)`), and `addHeaders`
(not under src/; per spec §4.F it only injects forwarding headers — it
never changes `Upgrade` or `Accept` — and fails exactly when the remote
address cannot be parsed, modelled by `addHeadersOk`). -/
structure DispatchEnv where
  shuttingDown : Bool
  lookup : HttpRequest → Option Target
  addHeadersOk : HttpRequest → Bool

/-- The observable outcome of one `ServeHTTP` call.  `status`/`body` are
the response written by the dispatcher itself (`http.Error` is modelled as
writing its message as the plain-text body); `status = none` means the
response comes from the invoked handler.  `lookedUp` records whether the
route table was consulted, and the two timer flags whether
`p.requests.UpdateSince` / `t.Timer.UpdateSince` ran. -/
structure DispatchResult where
  status : Option Nat
  body : String
  lookedUp : Bool
  handler : Option HandlerChoice
  requestsTimerUpdated : Bool
  targetTimerUpdated : Bool
deriving DecidableEq

/-- `Proxy.ServeHTTP` (src/proxy/proxy.go:27-65), control flow translated
branch for branch. -/
def ServeHTTP (env : DispatchEnv) (cfg : ProxyCfg) (r : HttpRequest) : DispatchResult :=
  if env.shuttingDown then
    { status := some 503, body := "shutting down", lookedUp := false, handler := none,
      requestsTimerUpdated := false, targetTimerUpdated := false }
  else
    match env.lookup r with
    | none =>
      { status := some cfg.noRouteStatus, body := "", lookedUp := true, handler := none,
        requestsTimerUpdated := false, targetTimerUpdated := false }
    | some t =>
      if env.addHeadersOk r = false then
        { status := some 500, body := "cannot parse " ++ r.remoteAddr, lookedUp := true,
          handler := none, requestsTimerUpdated := false, targetTimerUpdated := false }
      else
        let h : HandlerChoice :=
          if r.headerGet "Upgrade" = "websocket" then HandlerChoice.rawProxy t.url
          else if r.headerGet "Accept" = "text/event-stream" then
            HandlerChoice.httpProxy t.url cfg.flushInterval
          else HandlerChoice.httpProxy t.url 0
        { status := none, body := "", lookedUp := true, handler := some h,
          requestsTimerUpdated := true, targetTimerUpdated := true }

/-! ### Concrete fixtures used by witnesses and counterexamples -/

/-- A catalog entry whose tag list repeats the same qualifying tag. -/
def dupSvc : CatalogService :=
  { ServiceID := "i1", ServiceName := "s", ServiceAddress := "a",
    ServicePort := 80, Address := "n", ServiceTags := ["u-/", "u-/"] }

/-- A client with one datacenter serving `dupSvc`. -/
def dupClient : ConsulClient :=
  { datacenters := some ["dc1"], service := fun _ _ => some [dupSvc] }

/-- One passing check for `dupSvc`. -/
def dupChecks : List HealthCheck :=
  [{ ServiceName := "s", ServiceID := "i1", Status := "passing" }]

/-- A catalog entry with a single qualifying tag. -/
def oneSvc : CatalogService :=
  { ServiceID := "i1", ServiceName := "s", ServiceAddress := "1.1.1.1",
    ServicePort := 80, Address := "n", ServiceTags := ["u-/"] }

/-- A client with one datacenter, serving `oneSvc` under its own name only. -/
def oneClient : ConsulClient :=
  { datacenters := some ["dc1"],
    service := fun name _ => if name = "s" then some [oneSvc] else none }

/-- One passing check for `oneSvc`. -/
def oneChecks : List HealthCheck :=
  [{ ServiceName := "s", ServiceID := "i1", Status := "passing" }]

/-- The route line generated from `oneSvc`. -/
def oneLine : String := "route add s / http://1.1.1.1:80/ tags \"u-/\""

/-! ### Dispatcher claims -/

/-- Claim C5: while the shutdown gate is set, every request is answered
with status 503 and the plain-text body `shutting down`, and no route-table
lookup is performed. -/
theorem ServeHTTP_shutdown_503 (env : DispatchEnv) (cfg : ProxyCfg) (r : HttpRequest)
    (h : env.shuttingDown = true) :
    ServeHTTP env cfg r =
      { status := some 503, body := "shutting down", lookedUp := false, handler := none,
        requestsTimerUpdated := false, targetTimerUpdated := false } := by
  simp [ServeHTTP, h]

/-- Witness for C5 at a concrete environment and request. -/
theorem ServeHTTP_shutdown_503_witness :
    (⟨true, fun _ => none, fun _ => true⟩ : DispatchEnv).shuttingDown = true ∧
    ServeHTTP ⟨true, fun _ => none, fun _ => true⟩ ⟨404, 0⟩ ⟨fun _ => "", "1.2.3.4:5"⟩ =
      { status := some 503, body := "shutting down", lookedUp := false, handler := none,
        requestsTimerUpdated := false, targetTimerUpdated := false } :=
  ⟨rfl, ServeHTTP_shutdown_503 _ _ _ rfl⟩

/-- Claim C8: when the gate is clear and the route-table lookup yields no
target, the dispatcher answers with exactly the configured `NoRouteStatus`
and writes no body. -/
theorem ServeHTTP_noroute_status (env : DispatchEnv) (cfg : ProxyCfg) (r : HttpRequest)
    (hsd : env.shuttingDown = false) (hl : env.lookup r = none) :
    ServeHTTP env cfg r =
      { status := some cfg.noRouteStatus, body := "", lookedUp := true, handler := none,
        requestsTimerUpdated := false, targetTimerUpdated := false } := by
  simp [ServeHTTP, hsd, hl]

/-- Witness for C8 at a concrete environment and request. -/
theorem ServeHTTP_noroute_status_witness :
    (⟨false, fun _ => none, fun _ => true⟩ : DispatchEnv).shuttingDown = false ∧
    ServeHTTP ⟨false, fun _ => none, fun _ => true⟩ ⟨929, 0⟩ ⟨fun _ => "", "1.2.3.4:5"⟩ =
      { status := some 929, body := "", lookedUp := true, handler := none,
        requestsTimerUpdated := false, targetTimerUpdated := false } :=
  ⟨rfl, ServeHTTP_noroute_status _ _ _ rfl rfl⟩

/-- Claim C4: when a request reaches handler selection, an `Upgrade`
header equal to `websocket` selects the raw-upgrade handler; otherwise an
`Accept` header equal to `text/event-stream` selects the HTTP handler with
the configured flush interval; otherwise the HTTP handler with flush
interval zero is selected. -/
theorem ServeHTTP_handler_selection (env : DispatchEnv) (cfg : ProxyCfg) (r : HttpRequest)
    (t : Target) (hsd : env.shuttingDown = false) (hl : env.lookup r = some t)
    (hah : env.addHeadersOk r = true) :
    (r.headerGet "Upgrade" = "websocket" →
      (ServeHTTP env cfg r).handler = some (HandlerChoice.rawProxy t.url)) ∧
    (r.headerGet "Upgrade" ≠ "websocket" → r.headerGet "Accept" = "text/event-stream" →
      (ServeHTTP env cfg r).handler = some (HandlerChoice.httpProxy t.url cfg.flushInterval)) ∧
    (r.headerGet "Upgrade" ≠ "websocket" → r.headerGet "Accept" ≠ "text/event-stream" →
      (ServeHTTP env cfg r).handler = some (HandlerChoice.httpProxy t.url 0)) := by
  refine ⟨fun h1 => ?_, fun h1 h2 => ?_, fun h1 h2 => ?_⟩
  · simp [ServeHTTP, hsd, hl, hah, h1]
  · simp [ServeHTTP, hsd, hl, hah, h1, h2]
  · simp [ServeHTTP, hsd, hl, hah, h1, h2]

/-- Witness for C4: the three header shapes at concrete requests. -/
theorem ServeHTTP_handler_selection_witness :
    (ServeHTTP ⟨false, fun _ => some ⟨"http://b:1/"⟩, fun _ => true⟩ ⟨404, 7⟩
        ⟨fun h => if h = "Upgrade" then "websocket" else "", "a:1"⟩).handler
      = some (HandlerChoice.rawProxy "http://b:1/") ∧
    (ServeHTTP ⟨false, fun _ => some ⟨"http://b:1/"⟩, fun _ => true⟩ ⟨404, 7⟩
        ⟨fun h => if h = "Accept" then "text/event-stream" else "", "a:1"⟩).handler
      = some (HandlerChoice.httpProxy "http://b:1/" 7) ∧
    (ServeHTTP ⟨false, fun _ => some ⟨"http://b:1/"⟩, fun _ => true⟩ ⟨404, 7⟩
        ⟨fun _ => "", "a:1"⟩).handler
      = some (HandlerChoice.httpProxy "http://b:1/" 0) :=
  ⟨(ServeHTTP_handler_selection _ _ _ _ rfl rfl rfl).1 rfl,
   (ServeHTTP_handler_selection _ _ _ _ rfl rfl rfl).2.1 (by decide) rfl,
   (ServeHTTP_handler_selection _ _ _ _ rfl rfl rfl).2.2 (by decide) (by decide)⟩

/-- Claim C9: the global requests timer and the per-target timer are
updated exactly on the path where a backend handler was invoked; every
self-answered response (shutdown 503, no-route status, remote-address 500)
leaves both untouched. -/
theorem ServeHTTP_timer_frame (env : DispatchEnv) (cfg : ProxyCfg) (r : HttpRequest) :
    (ServeHTTP env cfg r).requestsTimerUpdated = (ServeHTTP env cfg r).handler.isSome ∧
    (ServeHTTP env cfg r).targetTimerUpdated = (ServeHTTP env cfg r).handler.isSome := by
  unfold ServeHTTP
  split
  · simp
  · split
    · simp
    · split <;> simp

/-- Claim C10: header matching is exact and case-sensitive: a request whose
`Upgrade` value is not exactly `websocket` and whose `Accept` value is not
exactly `text/event-stream` gets the default HTTP handler with flush
interval zero. -/
theorem ServeHTTP_exact_header_match (env : DispatchEnv) (cfg : ProxyCfg) (r : HttpRequest)
    (t : Target) (hsd : env.shuttingDown = false) (hl : env.lookup r = some t)
    (hah : env.addHeadersOk r = true)
    (hup : r.headerGet "Upgrade" ≠ "websocket")
    (hac : r.headerGet "Accept" ≠ "text/event-stream") :
    (ServeHTTP env cfg r).handler = some (HandlerChoice.httpProxy t.url 0) := by
  simp [ServeHTTP, hsd, hl, hah, hup, hac]

/-- Witness for C10: `Upgrade: WebSocket` (wrong case) together with
`Accept: text/event-stream, */*` (list, not exact) select the default
handler. -/
theorem ServeHTTP_exact_header_match_witness :
    (fun h => if h = "Upgrade" then "WebSocket"
              else if h = "Accept" then "text/event-stream, */*" else "" : String → String)
        "Upgrade" ≠ "websocket" ∧
    (ServeHTTP ⟨false, fun _ => some ⟨"http://b:1/"⟩, fun _ => true⟩ ⟨404, 7⟩
        ⟨fun h => if h = "Upgrade" then "WebSocket"
                  else if h = "Accept" then "text/event-stream, */*" else "", "a:1"⟩).handler
      = some (HandlerChoice.httpProxy "http://b:1/" 0) :=
  ⟨by decide, ServeHTTP_exact_header_match _ _ _ _ rfl rfl rfl (by decide) (by decide)⟩

/-! ### RoutingDocument shape claims -/

/-- Claim C2 (amended): the published RoutingDocument is the collected
route lines sorted in reverse lexicographic order and joined with a single
newline — but it may contain duplicate lines. -/
theorem servicesConfig_sorted_join (goos : String) (client : ConsulClient)
    (checks : List HealthCheck) (tagPfx : String) :
    servicesConfig goos client checks tagPfx
      = String.intercalate "\n" (routingDocLines goos client checks tagPfx) ∧
    (routingDocLines goos client checks tagPfx).Sorted (· ≥ ·) ∧
    (routingDocLines goos client checks tagPfx).Perm
      (servicesConfigLines goos client checks tagPfx) :=
  ⟨rfl, @List.sorted_insertionSort String (· ≥ ·) geDec _ _ _,
    @List.perm_insertionSort String (· ≥ ·) geDec _⟩

/-- Counterexample to C2 as stated: an instance whose tag list repeats the
same qualifying tag produces a document with the same line twice, so the
published document is not duplicate-free. -/
theorem servicesConfig_dup_counterexample :
    ¬ (routingDocLines "linux" dupClient dupChecks "u-").Nodup ∧
    servicesConfig "linux" dupClient dupChecks "u-" =
      "route add s / http://a:80/ tags \"u-/,u-/\"\nroute add s / http://a:80/ tags \"u-/,u-/\"" := by
  constructor
  · decide
  · decide

/-! ### Membership structure of the generated lines -/

lemma routeLineFor_eq_some {goos dc tagPfx : String} {svc : CatalogService} {tag line : String}
    (h : routeLineFor goos dc tagPfx svc tag = some line) :
    ∃ host path, parseURLPrefixTag tag tagPfx [("DC", dc)] = some (host, path) ∧
      line = fmtRouteLine svc.ServiceName host path (effAddr goos svc) svc.ServicePort
        svc.ServiceTags := by
  unfold routeLineFor at h
  cases hp : parseURLPrefixTag tag tagPfx [("DC", dc)] with
  | none => rw [hp] at h; cases h
  | some pr =>
    obtain ⟨host, path⟩ := pr
    rw [hp] at h
    simp only [Option.some.injEq] at h
    exact ⟨host, path, rfl, h.symm⟩

lemma mem_serviceConfigDC {goos tagPfx : String} {passing : List String} {dc : String}
    {svcs : List CatalogService} {line : String}
    (h : line ∈ serviceConfigDC goos tagPfx passing dc svcs) :
    ∃ svc ∈ svcs, passing.contains svc.ServiceID = true ∧
      ∃ tag ∈ svc.ServiceTags, routeLineFor goos dc tagPfx svc tag = some line := by
  rw [serviceConfigDC, List.mem_flatMap] at h
  obtain ⟨svc, hsvc, hline⟩ := h
  refine ⟨svc, hsvc, ?_⟩
  by_cases hp : passing.contains svc.ServiceID = true
  · rw [if_pos hp] at hline
    obtain ⟨tag, htag, heq⟩ := List.mem_filterMap.mp hline
    exact ⟨hp, tag, htag, heq⟩
  · rw [if_neg hp] at hline
    cases hline

lemma mem_serviceConfigLoop {goos : String} {client : ConsulClient} {name : String}
    {passing : List String} {tagPfx : String} :
    ∀ {dcs : List String} {lines : List String} {line : String},
      serviceConfigLoop goos client name passing tagPfx dcs = some lines → line ∈ lines →
      ∃ dc ∈ dcs, ∃ svcs, client.service name dc = some svcs ∧
        line ∈ serviceConfigDC goos tagPfx passing dc svcs := by
  intro dcs
  induction dcs with
  | nil =>
    intro lines line h hmem
    rw [serviceConfigLoop] at h
    cases h
    cases hmem
  | cons dc rest ih =>
    intro lines line h hmem
    rw [serviceConfigLoop] at h
    cases hs : client.service name dc with
    | none => rw [hs] at h; cases h
    | some svcs =>
      rw [hs] at h
      cases hl : serviceConfigLoop goos client name passing tagPfx rest with
      | none => rw [hl] at h; cases h
      | some restLines =>
        rw [hl] at h
        cases h
        rcases List.mem_append.mp hmem with hm | hm
        · exact ⟨dc, List.mem_cons_self _ _, svcs, hs, hm⟩
        · obtain ⟨dc', hdc', svcs', hs', hm'⟩ := ih hl hm
          exact ⟨dc', List.mem_cons_of_mem _ hdc', svcs', hs', hm'⟩

lemma mem_serviceConfig {goos : String} {client : ConsulClient} {name : String}
    {passing : List String} {tagPfx : String} {line : String}
    (h : line ∈ serviceConfig goos client name passing tagPfx) :
    ∃ dcsAll, client.datacenters = some dcsAll ∧
      ∃ dc ∈ dcsAll, ∃ svcs, client.service name dc = some svcs ∧
        ∃ svc ∈ svcs, passing.contains svc.ServiceID = true ∧
          ∃ tag ∈ svc.ServiceTags, routeLineFor goos dc tagPfx svc tag = some line := by
  rw [serviceConfig] at h
  by_cases h1 : name = ""
  · rw [if_pos h1] at h; cases h
  rw [if_neg h1] at h
  by_cases h2 : passing.isEmpty = true
  · rw [if_pos h2] at h; cases h
  rw [if_neg h2] at h
  cases hd : client.datacenters with
  | none => rw [hd] at h; cases h
  | some dcs =>
    rw [hd] at h
    have h' : line ∈ (serviceConfigLoop goos client name passing tagPfx dcs).getD [] := h
    cases hl : serviceConfigLoop goos client name passing tagPfx dcs with
    | none => rw [hl] at h'; cases h'
    | some lines' =>
      rw [hl] at h'
      obtain ⟨dc, hdc, svcs, hs, hm⟩ := mem_serviceConfigLoop hl h'
      obtain ⟨svc, hsvc, hp, tag, htag, heq⟩ := mem_serviceConfigDC hm
      exact ⟨dcs, rfl, dc, hdc, svcs, hs, svc, hsvc, hp, tag, htag, heq⟩

lemma mem_passingIds {checks : List HealthCheck} {name id : String} :
    id ∈ passingIds checks name ↔
      ∃ c ∈ checks, c.ServiceName = name ∧ c.ServiceID = id := by
  simp only [passingIds, List.mem_dedup, List.mem_map, List.mem_filter,
    decide_eq_true_eq]
  constructor
  · rintro ⟨c, ⟨hc, hn⟩, hid⟩
    exact ⟨c, hc, hn, hid⟩
  · rintro ⟨c, hc, hn, hid⟩
    exact ⟨c, ⟨hc, hn⟩, hid⟩

lemma mem_servicesConfigLines {goos : String} {client : ConsulClient}
    {checks : List HealthCheck} {tagPfx : String} {line : String}
    (hline : line ∈ routingDocLines goos client checks tagPfx) :
    ∃ name ∈ serviceNames checks,
      line ∈ serviceConfig goos client name (passingIds checks name) tagPfx := by
  have hmem : line ∈ servicesConfigLines goos client checks tagPfx :=
    (@List.perm_insertionSort String (· ≥ ·) geDec _).mem_iff.mp hline
  rw [servicesConfigLines, List.mem_flatMap] at hmem
  exact hmem

/-- Claim C1: every route line of a published RoutingDocument was produced
from a catalog instance whose `ServiceID` is in the passing-set computed
for that instance's service name from the same cycle's health checks; no
line for an instance outside the passing-set appears. -/
theorem routingDoc_passing_only (goos : String) (client : ConsulClient)
    (checks : List HealthCheck) (tagPfx : String)
    (hwf : ∀ name dc svcs svc, client.service name dc = some svcs → svc ∈ svcs →
      svc.ServiceName = name)
    (line : String) (hline : line ∈ routingDocLines goos client checks tagPfx) :
    ∃ svc : CatalogService, ∃ dc tag : String,
      routeLineFor goos dc tagPfx svc tag = some line ∧
      svc.ServiceID ∈ passingIds checks svc.ServiceName ∧
      ∃ check ∈ checks, check.ServiceName = svc.ServiceName ∧
        check.ServiceID = svc.ServiceID := by
  obtain ⟨name, hname, hline2⟩ := mem_servicesConfigLines hline
  obtain ⟨dcsAll, hd, dc, hdc, svcs, hs, svc, hsvc, hp, tag, htag, heq⟩ :=
    mem_serviceConfig hline2
  have hn : svc.ServiceName = name := hwf name dc svcs svc hs hsvc
  have hid : svc.ServiceID ∈ passingIds checks name := by
    rwa [List.elem_iff] at hp
  refine ⟨svc, dc, tag, heq, by rw [hn]; exact hid, ?_⟩
  obtain ⟨c, hc, hcn, hcid⟩ := mem_passingIds.mp hid
  exact ⟨c, hc, hcn.trans hn.symm, hcid⟩

/-- Witness for C1 at a one-instance catalog. -/
theorem routingDoc_passing_only_witness :
    oneLine ∈ routingDocLines "linux" oneClient oneChecks "u-" ∧
    (∃ svc : CatalogService, ∃ dc tag : String,
      routeLineFor "linux" dc "u-" svc tag = some oneLine ∧
      svc.ServiceID ∈ passingIds oneChecks svc.ServiceName ∧
      ∃ check ∈ oneChecks, check.ServiceName = svc.ServiceName ∧
        check.ServiceID = svc.ServiceID) :=
  ⟨by decide,
    routingDoc_passing_only "linux" oneClient oneChecks "u-"
      (by
        intro name dc svcs svc hs hm
        simp only [oneClient] at hs
        split at hs
        · rename_i hn
          cases hs
          simp only [List.mem_singleton] at hm
          subst hm
          exact hn.symm
        · cases hs)
      oneLine (by decide)⟩

/-- Claim C3: every route line of a published document is the canonical
`route add <service> <host><path> http://<addr>:<port>/ tags "<csv>"`
rendering for a qualifying tag of some catalog instance, and its address is
the node address exactly when the instance address is empty (then
darwin-adjusted). -/
theorem routingDoc_lines_wellformed (goos : String) (client : ConsulClient)
    (checks : List HealthCheck) (tagPfx : String) (line : String)
    (hline : line ∈ routingDocLines goos client checks tagPfx) :
    ∃ svc : CatalogService, ∃ dc tag host path : String,
      tag ∈ svc.ServiceTags ∧
      parseURLPrefixTag tag tagPfx [("DC", dc)] = some (host, path) ∧
      line = RouteLine.render ⟨svc.ServiceName, host, path, effAddr goos svc,
        svc.ServicePort, svc.ServiceTags⟩ ∧
      (svc.ServiceAddress = "" → effAddr goos svc = darwinAdjust goos svc.Address) ∧
      (svc.ServiceAddress ≠ "" → effAddr goos svc = darwinAdjust goos svc.ServiceAddress) := by
  obtain ⟨name, hname, hline2⟩ := mem_servicesConfigLines hline
  obtain ⟨dcsAll, hd, dc, hdc, svcs, hs, svc, hsvc, hp, tag, htag, heq⟩ :=
    mem_serviceConfig hline2
  obtain ⟨host, path, hparse, hfmt⟩ := routeLineFor_eq_some heq
  refine ⟨svc, dc, tag, host, path, htag, hparse, hfmt, ?_, ?_⟩
  · intro hempty
    rw [effAddr, if_pos hempty]
  · intro hne
    rw [effAddr, if_neg hne]

/-- Witness for C3 at a one-instance catalog. -/
theorem routingDoc_lines_wellformed_witness :
    oneLine ∈ routingDocLines "linux" oneClient oneChecks "u-" ∧
    (∃ svc : CatalogService, ∃ dc tag host path : String,
      tag ∈ svc.ServiceTags ∧
      parseURLPrefixTag tag "u-" [("DC", dc)] = some (host, path) ∧
      oneLine = RouteLine.render ⟨svc.ServiceName, host, path, effAddr "linux" svc,
        svc.ServicePort, svc.ServiceTags⟩ ∧
      (svc.ServiceAddress = "" → effAddr "linux" svc = darwinAdjust "linux" svc.Address) ∧
      (svc.ServiceAddress ≠ "" →
        effAddr "linux" svc = darwinAdjust "linux" svc.ServiceAddress)) :=
  ⟨by decide,
    routingDoc_lines_wellformed "linux" oneClient oneChecks "u-" oneLine (by decide)⟩

/-! ### Watcher iteration claims -/

lemma remoteFetch_fst (env : WatchEnv) (dcIndex : Nat) :
    ∀ l : List (Nat × String), (remoteFetch env dcIndex l).1 = okRemoteChecks env dcIndex l := by
  intro l
  induction l with
  | nil => rfl
  | cons p rest ih =>
    obtain ⟨i, dc⟩ := p
    by_cases hi : i = dcIndex
    · simp only [remoteFetch, if_pos hi, okRemoteChecks, List.flatMap_cons, ih]
      rw [okRemoteChecks] at ih
      simp [hi, ih]
    · cases he : env.healthState dc 0 with
      | none =>
        simp only [remoteFetch, if_neg hi, he, okRemoteChecks, List.flatMap_cons]
        rw [okRemoteChecks] at ih
        simp [hi, he, ih]
      | some hr =>
        simp only [remoteFetch, if_neg hi, he, okRemoteChecks, List.flatMap_cons]
        rw [okRemoteChecks] at ih
        simp [hi, he, ih]

/-- An environment whose every health read fails. -/
def failEnv : WatchEnv := ⟨fun _ _ => none⟩

/-- A client whose datacenters call fails. -/
def nilClient : ConsulClient := ⟨none, fun _ _ => none⟩

/-- An environment where only datacenter `dc0` answers. -/
def partEnv : WatchEnv :=
  ⟨fun dc _ => if dc = "dc0" then some ⟨[], 5⟩ else none⟩

/-- Claim C6: a watcher iteration whose blocking local health read fails
logs one WARN, sleeps one second and retries: `lastIndex` is unchanged and
no RoutingDocument is published in that iteration. -/
theorem watchStep_local_error (goos : String) (env : WatchEnv) (client : ConsulClient)
    (tagPfx : String) (status : List String) (datacenters : List String)
    (dcIndex lastIndex : Nat)
    (h : env.healthState (datacenters.getD dcIndex "") lastIndex = none) :
    watchStep goos env client tagPfx status datacenters dcIndex lastIndex
      = (lastIndex, [WatchEvent.warnFetch, WatchEvent.sleepSec 1]) ∧
    ∀ d, WatchEvent.publish d ∉
      (watchStep goos env client tagPfx status datacenters dcIndex lastIndex).2 := by
  have h1 : watchStep goos env client tagPfx status datacenters dcIndex lastIndex
      = (lastIndex, [WatchEvent.warnFetch, WatchEvent.sleepSec 1]) := by
    unfold watchStep
    rw [h]
  refine ⟨h1, fun d hd => ?_⟩
  rw [h1] at hd
  simp at hd

/-- Witness for C6 at a failing environment. -/
theorem watchStep_local_error_witness :
    failEnv.healthState (([] : List String).getD 0 "") 0 = none ∧
    watchStep "linux" failEnv nilClient "u-" [] [] 0 0
      = (0, [WatchEvent.warnFetch, WatchEvent.sleepSec 1]) :=
  ⟨rfl, (watchStep_local_error "linux" failEnv nilClient "u-" [] [] 0 0 rfl).1⟩

/-- Claim C7: when the local read succeeds, a failing remote datacenter is
skipped — it contributes no checks — but the iteration still publishes a
RoutingDocument built from the local checks plus the checks of the remote
datacenters that succeeded, and `lastIndex` advances. -/
theorem watchStep_remote_error_publishes (goos : String) (env : WatchEnv)
    (client : ConsulClient) (tagPfx : String) (status : List String)
    (datacenters : List String) (dcIndex lastIndex : Nat) (res : HealthResult)
    (j : Nat) (dc : String)
    (hres : env.healthState (datacenters.getD dcIndex "") lastIndex = some res)
    (hmem : (j, dc) ∈ datacenters.enum) (hne : j ≠ dcIndex)
    (hfail : env.healthState dc 0 = none) :
    (watchStep goos env client tagPfx status datacenters dcIndex lastIndex).1
      = res.metaLastIndex ∧
    WatchEvent.publish
        (servicesConfig goos client
          (passingServices (res.checks ++ okRemoteChecks env dcIndex datacenters.enum) status)
          tagPfx)
      ∈ (watchStep goos env client tagPfx status datacenters dcIndex lastIndex).2 ∧
    (if j = dcIndex then ([] : List HealthCheck)
      else ((env.healthState dc 0).map HealthResult.checks).getD []) = [] := by
  refine ⟨?_, ?_, ?_⟩
  · unfold watchStep
    rw [hres]
  · unfold watchStep
    rw [hres]
    have hrf := remoteFetch_fst env dcIndex datacenters.enum
    simp [hrf]
  · rw [if_neg hne, hfail]
    rfl

/-- Witness for C7: two datacenters, the remote one failing; the iteration
still publishes and advances the index to 5. -/
theorem watchStep_remote_error_publishes_witness :
    partEnv.healthState ((["dc0", "dc1"] : List String).getD 0 "") 0
      = some ⟨[], 5⟩ ∧
    partEnv.healthState "dc1" 0 = none ∧
    (watchStep "linux" partEnv nilClient "u-" [] ["dc0", "dc1"] 0 0).1 = 5 ∧
    WatchEvent.publish
        (servicesConfig "linux" nilClient
          (passingServices ((⟨[], 5⟩ : HealthResult).checks
            ++ okRemoteChecks partEnv 0 (["dc0", "dc1"] : List String).enum) [])
          "u-")
      ∈ (watchStep "linux" partEnv nilClient "u-" [] ["dc0", "dc1"] 0 0).2 :=
  ⟨rfl, rfl,
    (watchStep_remote_error_publishes "linux" partEnv nilClient "u-" [] ["dc0", "dc1"]
      0 0 ⟨[], 5⟩ 1 "dc1" rfl (by decide) (by decide) rfl).1,
    (watchStep_remote_error_publishes "linux" partEnv nilClient "u-" [] ["dc0", "dc1"]
      0 0 ⟨[], 5⟩ 1 "dc1" rfl (by decide) (by decide) rfl).2.1⟩

end Fabio
